import Mathlib

/-!
Verification of the `@aryanjsx/api-response` library: a shallow embedding of
its response builders and of the global error-handling middleware, together
with theorems about the behaviour of those functions.

Modelling conventions (JavaScript semantics made explicit):
* A JS value that may be `undefined`/`null` is an `Option`.
* JS string truthiness: the empty string is falsy.
* JS number truthiness on status codes: `0` is falsy, so `x || 500` yields
  `500` when `x` is `0` or absent.
* An object used as a string-keyed record is a `List (String × String)`
  (first-match lookup) or, for a merged result, a lookup function
  `String → Option String`.
* `res.status(c).json(body)` is modelled as a result record carrying the
  status given to the sink and the body sent to it.
-/

namespace ApiResponse

/-- JS truthiness of a string: the empty string is falsy. -/
def strTruthy (s : String) : Bool := s ≠ ""

/-- JS truthiness of a possibly-absent string: absent and empty are falsy. -/
def optStrTruthy : Option String → Bool
  | some s => strTruthy s
  | none => false

/-- JS `a || b` on possibly-absent strings: `a` wins exactly when truthy. -/
def jsOrString (a b : Option String) : Option String :=
  match a with
  | some s => if s = "" then b else some s
  | none => b

/-- Function `generateMeta` from `meta.ts`: the object literal
`{ timestamp: new Date().toISOString(), ...additionalMeta }`, viewed as a
lookup function. An entry of `additionalMeta` overrides the generated
`timestamp`, since the spread comes after the `timestamp` field. The clock
reading is the explicit argument `now`. -/
def generateMeta (now : String) (additionalMeta : List (String × String)) :
    String → Option String :=
  fun k =>
    match additionalMeta.lookup k with
    | some v => some v
    | none => if k = "timestamp" then some now else none

/-- The `AppError` class from `appError.ts`: message, HTTP status code,
machine-readable code, the always-true `isOperational` flag, and the stack
trace captured at construction time. -/
structure AppError where
  message : String
  statusCode : Nat
  code : String
  isOperational : Bool
  stack : String

/-- The `AppError` constructor: sets `isOperational` to `true` and captures
the current stack trace (modelled as the explicit argument
`capturedStack`). Call sites supply the defaults `statusCode = 500` and
`code = "INTERNAL_ERROR"` themselves. -/
def mkAppError (capturedStack message : String) (statusCode : Nat)
    (code : String) : AppError :=
  { message := message, statusCode := statusCode, code := code,
    isOperational := true, stack := capturedStack }

/-- An unknown (non-`AppError`) thrown value as `globalErrorHandler` sees it:
a `message` string (a JS `Error` always has one, possibly empty), an optional
`statusCode` field some libraries attach, and an optional `stack` string. -/
structure UnknownError where
  message : String
  statusCode : Option Nat
  stack : Option String

/-- The `err` argument of the error-handling middleware: either a recognized
`AppError` instance or an unknown failure. -/
inductive ThrownError where
  | app (e : AppError)
  | unknown (e : UnknownError)

/-- A value of the header map: a single string or a list of strings. -/
inductive HeaderValue where
  | str (s : String)
  | strs (l : List String)

/-- The request context (`ApiRequest` in `types.ts`): an optional
`requestId` field and a header map. -/
structure ApiRequest where
  requestId : Option String
  headers : List (String × HeaderValue)

/-- The header value at key `k` when it is a single string, else the JS
value null — the typeof-string test in the handler. -/
def headerStringValue (req : ApiRequest) (k : String) : Option String :=
  match req.headers.lookup k with
  | some (HeaderValue.str s) => some s
  | _ => none

/-- The raw correlation id of `globalErrorHandler`: the JS disjunction of
`req.requestId` and the single-string value of the `x-request-id` header. -/
def rawRequestId (req : ApiRequest) : Option String :=
  jsOrString req.requestId (headerStringValue req "x-request-id")

/-- The extra metadata record built by `globalErrorHandler`: a one-entry
`requestId` record when the raw id is truthy, empty otherwise. -/
def requestMeta (req : ApiRequest) : List (String × String) :=
  match rawRequestId req with
  | some s => if s = "" then [] else [("requestId", s)]
  | none => []

/-- The error envelope (`ErrorResponse` in `types.ts`) as sent by
`globalErrorHandler`: absent optional fields are `none`, and `meta` is the
merged metadata record viewed as a lookup function. -/
structure ErrorResponse where
  success : Bool
  statusCode : Nat
  message : String
  code : Option String
  stack : Option String
  meta : String → Option String

/-- The effect of `res.status(c).json(body)` for an error envelope: the
status set on the sink and the body sent. -/
structure HandlerResult where
  sinkStatus : Nat
  body : ErrorResponse

/-- The production test on the NODE_ENV environment variable: the
deployment-mode signal is an optional string compared for exact equality
with `"production"`. -/
def isProductionMode (nodeEnv : Option String) : Bool :=
  nodeEnv == some "production"

/-- The status `(err as AppError).statusCode || 500` of an unknown failure:
the carried
status when it is a truthy number, else `500` (a carried `0` is falsy). -/
def effectiveStatus (e : UnknownError) : Nat :=
  match e.statusCode with
  | some n => if n = 0 then 500 else n
  | none => 500

/-- The middleware returned by `globalErrorHandler()` in the error module.
`nodeEnv` is the deployment-mode signal read at handling time and `now` the
clock reading used by `generateMeta`. -/
def globalErrorHandler (nodeEnv : Option String) (now : String)
    (err : ThrownError) (req : ApiRequest) : HandlerResult :=
  let meta := requestMeta req
  match err with
  | ThrownError.app e =>
      { sinkStatus := e.statusCode
        body :=
          { success := false, statusCode := e.statusCode,
            message := e.message, code := some e.code, stack := none,
            meta := generateMeta now meta } }
  | ThrownError.unknown e =>
      let isProduction := isProductionMode nodeEnv
      let statusCode := effectiveStatus e
      let message :=
        if isProduction && statusCode == 500 then "Internal server error"
        else if e.message = "" then "An unexpected error occurred"
        else e.message
      let stack :=
        if !isProduction && optStrTruthy e.stack then e.stack else none
      { sinkStatus := statusCode
        body :=
          { success := false, statusCode := statusCode, message := message,
            code := some "INTERNAL_ERROR", stack := stack,
            meta := generateMeta now meta } }

/-- The `pagination` block computed by `paginated` in `paginate.ts`:
`totalPages = Math.ceil(total / limit)` over JS numbers is the rational
ceiling, and the two flags are `page < totalPages` and `page > 1`. -/
structure PaginationOutput where
  page : Nat
  limit : Nat
  total : Nat
  totalPages : Int
  hasNextPage : Bool
  hasPrevPage : Bool

/-- The body of `paginationOutput` built by `paginated` from its
`{ page, limit, total }` argument. -/
def mkPaginationOutput (page limit total : Nat) : PaginationOutput :=
  let totalPages : Int := ⌈(total : ℚ) / (limit : ℚ)⌉
  { page := page, limit := limit, total := total, totalPages := totalPages,
    hasNextPage := decide ((page : Int) < totalPages),
    hasPrevPage := decide (1 < page) }

/-- The paginated response body (`PaginatedResponse` in `types.ts`). -/
structure PaginatedBody (T : Type) where
  success : Bool
  statusCode : Nat
  message : String
  data : List T
  pagination : PaginationOutput
  meta : String → Option String

/-- The result of `paginated`: the sink status and the body. -/
structure PaginatedResult (T : Type) where
  sinkStatus : Nat
  body : PaginatedBody T

/-- Function `paginated` from `paginate.ts`: builds the pagination block and
sends a
success envelope with status `200`. Call sites supply the default
`message = "Success"` themselves. -/
def paginated {T : Type} (now : String) (data : List T)
    (page limit total : Nat) (message : String) : PaginatedResult T :=
  { sinkStatus := 200
    body :=
      { success := true, statusCode := 200, message := message, data := data,
        pagination := mkPaginationOutput page limit total,
        meta := generateMeta now [] } }

/-- A validation error item: a field name and a message. -/
structure ValidationErrorItem where
  field : String
  message : String

/-- The validation-error response body (`ValidationErrorResponse`). -/
structure ValidationErrorBody where
  success : Bool
  statusCode : Nat
  message : String
  errors : List ValidationErrorItem
  meta : String → Option String

/-- The result of `validationError`: the sink status and the body. -/
structure ValidationResult where
  sinkStatus : Nat
  body : ValidationErrorBody

/-- Function `validationError` from `validation.ts`: a fixed-shape 422
envelope whose
only caller-dependent field is `errors`. -/
def validationError (now : String) (errors : List ValidationErrorItem) :
    ValidationResult :=
  { sinkStatus := 422
    body :=
      { success := false, statusCode := 422, message := "Validation failed",
        errors := errors, meta := generateMeta now [] } }

/-- Claim C1: for every `AppError` with status `S`, code `C` and message `M`
given to the error handler, the envelope has `statusCode = S`, `code = C`,
`message = M`, and the sink status is `S`, for every value of the
deployment-mode signal. -/
theorem appError_normalized (e : AppError) (req : ApiRequest)
    (nodeEnv : Option String) (now : String) :
    (globalErrorHandler nodeEnv now (ThrownError.app e) req).body.statusCode
      = e.statusCode ∧
    (globalErrorHandler nodeEnv now (ThrownError.app e) req).body.code
      = some e.code ∧
    (globalErrorHandler nodeEnv now (ThrownError.app e) req).body.message
      = e.message ∧
    (globalErrorHandler nodeEnv now (ThrownError.app e) req).sinkStatus
      = e.statusCode :=
  ⟨rfl, rfl, rfl, rfl⟩

/-- Claim C10: the `AppError` branch of the error handler never attaches a
stack field to the envelope, whatever the deployment mode, even though every
`AppError` carries the stack captured at construction. -/
theorem appError_stack_never_attached (e : AppError) (req : ApiRequest)
    (nodeEnv : Option String) (now : String) :
    (globalErrorHandler nodeEnv now (ThrownError.app e) req).body.stack
      = none :=
  rfl

/-- Claim C2: an unknown failure handled in production whose effective status
is `500` (in particular any failure with no `statusCode` field) produces the
fixed envelope `message = "Internal server error"`, `code = "INTERNAL_ERROR"`,
`statusCode = 500`, sink status `500`, and no stack field — independent of
the message and stack of the failure. -/
theorem unknown_production_500_redacted (e : UnknownError) (req : ApiRequest)
    (now : String) (h : effectiveStatus e = 500) :
    (globalErrorHandler (some "production") now (ThrownError.unknown e) req).body.message
      = "Internal server error" ∧
    (globalErrorHandler (some "production") now (ThrownError.unknown e) req).body.code
      = some "INTERNAL_ERROR" ∧
    (globalErrorHandler (some "production") now (ThrownError.unknown e) req).body.statusCode
      = 500 ∧
    (globalErrorHandler (some "production") now (ThrownError.unknown e) req).sinkStatus
      = 500 ∧
    (globalErrorHandler (some "production") now (ThrownError.unknown e) req).body.stack
      = none := by
  simp [globalErrorHandler, isProductionMode, h]

/-- Witness for C2: a concrete unknown failure carrying a message and a stack
but no status, handled in production. -/
theorem unknown_production_500_redacted_witness :
    effectiveStatus ⟨"Sensitive details", none, some "trace"⟩ = 500 ∧
    (globalErrorHandler (some "production") "2024-01-01T00:00:00.000Z"
        (ThrownError.unknown ⟨"Sensitive details", none, some "trace"⟩)
        ⟨none, []⟩).body.message = "Internal server error" :=
  ⟨rfl, (unknown_production_500_redacted ⟨"Sensitive details", none, some "trace"⟩
      ⟨none, []⟩ "2024-01-01T00:00:00.000Z" rfl).1⟩

/-- Claim C7: `validationError` always sets the sink status to `422` and
sends `success = false`, `statusCode = 422`, `message = "Validation failed"`
and `errors` equal to the given array, for any array including `[]`. -/
theorem validationError_fixed_shape (errs : List ValidationErrorItem)
    (now : String) :
    (validationError now errs).sinkStatus = 422 ∧
    (validationError now errs).body.success = false ∧
    (validationError now errs).body.statusCode = 422 ∧
    (validationError now errs).body.message = "Validation failed" ∧
    (validationError now errs).body.errors = errs :=
  ⟨rfl, rfl, rfl, rfl, rfl⟩

/-- Claim C8: `generateMeta` always yields a record with a `timestamp` key;
every entry of the extra mapping is in the result (so a caller-supplied
`timestamp` overrides the generated one); and when the extra mapping has no
`timestamp` entry the resulting `timestamp` is the generated clock value. -/
theorem generateMeta_overlay (now : String)
    (extra : List (String × String)) :
    (generateMeta now extra "timestamp").isSome = true ∧
    (∀ k v, extra.lookup k = some v → generateMeta now extra k = some v) ∧
    (extra.lookup "timestamp" = none →
      generateMeta now extra "timestamp" = some now) := by
  refine ⟨?_, ?_, ?_⟩
  · unfold generateMeta
    cases hl : extra.lookup "timestamp" <;> simp [hl]
  · intro k v hv
    unfold generateMeta
    simp [hv]
  · intro hnone
    unfold generateMeta
    simp [hnone]

/-- Witness for C8: a caller-supplied `timestamp` entry replaces the
generated value. -/
theorem generateMeta_overlay_witness :
    generateMeta "T0" [("timestamp", "T1")] "timestamp" = some "T1" :=
  (generateMeta_overlay "T0" [("timestamp", "T1")]).2.1 "timestamp" "T1" rfl

/-- Counterexample for C3: an unknown failure in production that carries the
explicit status `0` (a `statusCode` field not equal to `500`) and the empty
message. The claim asserts the envelope keeps the carried status and the
original message; the code yields status `500` (because `0 || 500` is `500`)
and the redacted generic message. -/
theorem unknown_production_non500_counterexample :
    (globalErrorHandler (some "production") "T"
        (ThrownError.unknown ⟨"", some 0, none⟩) ⟨none, []⟩).body.statusCode
      ≠ 0 ∧
    (globalErrorHandler (some "production") "T"
        (ThrownError.unknown ⟨"", some 0, none⟩) ⟨none, []⟩).body.message
      ≠ "" := by
  constructor
  · decide
  · decide

/-- Claim C3 (amended): an unknown failure in production carrying an explicit
non-zero status different from `500` and a non-empty message keeps both: the
envelope status is the carried status, its message the original message. -/
theorem unknown_production_non500_preserved (e : UnknownError)
    (req : ApiRequest) (now : String) (n : Nat) (hn : e.statusCode = some n)
    (h0 : n ≠ 0) (h500 : n ≠ 500) (hm : e.message ≠ "") :
    (globalErrorHandler (some "production") now (ThrownError.unknown e) req).body.statusCode
      = n ∧
    (globalErrorHandler (some "production") now (ThrownError.unknown e) req).body.message
      = e.message ∧
    (globalErrorHandler (some "production") now (ThrownError.unknown e) req).sinkStatus
      = n := by
  have hs : effectiveStatus e = n := by
    unfold effectiveStatus
    rw [hn]
    simp [h0]
  simp [globalErrorHandler, isProductionMode, hs, h500, hm]

/-- Witness for amended C3: a `404` failure with a non-empty message, in
production, keeps its status and message. -/
theorem unknown_production_non500_preserved_witness :
    (⟨"Resource missing", some 404, none⟩ : UnknownError).statusCode
      = some 404 ∧
    (404 : Nat) ≠ 0 ∧ (404 : Nat) ≠ 500 ∧
    (⟨"Resource missing", some 404, none⟩ : UnknownError).message ≠ "" ∧
    (globalErrorHandler (some "production") "T"
        (ThrownError.unknown ⟨"Resource missing", some 404, none⟩)
        ⟨none, []⟩).body.message = "Resource missing" :=
  ⟨rfl, by decide, by decide, by decide,
    (unknown_production_non500_preserved ⟨"Resource missing", some 404, none⟩
      ⟨none, []⟩ "T" 404 rfl (by decide) (by decide) (by decide)).2.1⟩

/-- Claim C4: an unknown failure handled outside production keeps its own
message when non-empty (else the generic fallback), gets the fixed code
`"INTERNAL_ERROR"`, and the envelope has a stack field exactly when the
failure carries a (non-empty, hence truthy) stack, in which case it is the
stack of the failure. -/
theorem unknown_nonproduction_details (e : UnknownError) (req : ApiRequest)
    (nodeEnv : Option String) (now : String)
    (h : nodeEnv ≠ some "production") :
    ((globalErrorHandler nodeEnv now (ThrownError.unknown e) req).body.message
      = if e.message = "" then "An unexpected error occurred" else e.message) ∧
    (globalErrorHandler nodeEnv now (ThrownError.unknown e) req).body.code
      = some "INTERNAL_ERROR" ∧
    ((globalErrorHandler nodeEnv now (ThrownError.unknown e) req).body.stack
        ≠ none ↔ ∃ s, e.stack = some s ∧ s ≠ "") ∧
    (∀ s, e.stack = some s → s ≠ "" →
      (globalErrorHandler nodeEnv now (ThrownError.unknown e) req).body.stack
        = some s) := by
  have hp : isProductionMode nodeEnv = false := by
    unfold isProductionMode
    cases hnb : nodeEnv == some "production"
    · rfl
    · exact absurd (eq_of_beq hnb) h
  refine ⟨?_, ?_, ?_, ?_⟩
  · simp [globalErrorHandler, hp]
  · simp [globalErrorHandler, hp]
  · cases hst : e.stack with
    | none => simp [globalErrorHandler, hp, optStrTruthy, hst]
    | some s =>
      by_cases hse : s = ""
      · subst hse
        simp [globalErrorHandler, hp, optStrTruthy, strTruthy, hst]
      · simp [globalErrorHandler, hp, optStrTruthy, strTruthy, hst, hse]
  · intro s hst hse
    simp [globalErrorHandler, hp, optStrTruthy, strTruthy, hst, hse]

/-- Witness for C4: a concrete unknown failure with a non-empty message and
stack, handled with an unset deployment-mode signal. -/
theorem unknown_nonproduction_details_witness :
    (none : Option String) ≠ some "production" ∧
    (globalErrorHandler none "T"
        (ThrownError.unknown ⟨"kaput", some 418, some "st"⟩)
        ⟨none, []⟩).body.stack = some "st" :=
  ⟨by decide,
    (unknown_nonproduction_details ⟨"kaput", some 418, some "st"⟩ ⟨none, []⟩
      none "T" (by decide)).2.2.2 "st" rfl (by decide)⟩

/-- Counterexample for C5: a request whose `requestId` field is present but
empty while an `x-request-id` header is present. The claim asserts the
request-level id (here `""`) is attached; the code attaches the header value
`"hdr-1"` instead, because `req.requestId || header` tests truthiness. -/
theorem requestId_precedence_counterexample :
    (globalErrorHandler none "T" (ThrownError.unknown ⟨"x", none, none⟩)
        ⟨some "", [("x-request-id", HeaderValue.str "hdr-1")]⟩).body.meta
        "requestId" = some "hdr-1" ∧
    ("hdr-1" : String) ≠ "" := by
  constructor
  · rfl
  · decide

/-- Claim C5 (amended): when the request context carries a non-empty
`requestId`, that id is attached to the envelope meta whatever the header
map holds; when the `requestId` field is absent and there is no
`x-request-id` header entry, no `requestId` is attached. -/
theorem requestId_precedence (req : ApiRequest) (err : ThrownError)
    (nodeEnv : Option String) (now : String) :
    (∀ r, req.requestId = some r → r ≠ "" →
      (globalErrorHandler nodeEnv now err req).body.meta "requestId"
        = some r) ∧
    (req.requestId = none → req.headers.lookup "x-request-id" = none →
      (globalErrorHandler nodeEnv now err req).body.meta "requestId"
        = none) := by
  have hmeta : (globalErrorHandler nodeEnv now err req).body.meta
      = generateMeta now (requestMeta req) := by
    cases err <;> rfl
  constructor
  · intro r hr hne
    rw [hmeta]
    unfold requestMeta rawRequestId jsOrString
    rw [hr]
    simp [hne, generateMeta]
  · intro hr hh
    rw [hmeta]
    unfold requestMeta rawRequestId jsOrString headerStringValue
    rw [hr, hh]
    simp [generateMeta]

/-- Witness for amended C5: a non-empty request-level id wins over a present
header id. -/
theorem requestId_precedence_witness :
    (⟨some "req-7", [("x-request-id", HeaderValue.str "hdr-1")]⟩
        : ApiRequest).requestId = some "req-7" ∧
    ("req-7" : String) ≠ "" ∧
    (globalErrorHandler none "T0" (ThrownError.unknown ⟨"x", none, none⟩)
        ⟨some "req-7", [("x-request-id", HeaderValue.str "hdr-1")]⟩).body.meta
        "requestId" = some "req-7" :=
  ⟨rfl, by decide,
    (requestId_precedence
        ⟨some "req-7", [("x-request-id", HeaderValue.str "hdr-1")]⟩
        (ThrownError.unknown ⟨"x", none, none⟩) none "T0").1 "req-7" rfl
      (by decide)⟩

/-- Counterexample for C9: with an empty `requestId` field and an
`x-request-id` header that is the single string `""`, the claim asserts the
header value is attached; the code attaches nothing, because the fallen-back
value `""` fails the `requestId ? { requestId } : {}` truthiness test. -/
theorem falsy_requestId_counterexample :
    ¬ ((globalErrorHandler none "T" (ThrownError.unknown ⟨"x", none, none⟩)
        ⟨some "", [("x-request-id", HeaderValue.str "")]⟩).body.meta
        "requestId" = some "") := by
  decide

/-- Claim C9 (amended): when the `requestId` field is present but empty,
extraction falls through to the `x-request-id` header: its value is attached
if it is a single non-empty string, and no correlation id is attached
otherwise (no entry, a string-list entry, or an empty-string entry). -/
theorem falsy_requestId_fallthrough (req : ApiRequest) (err : ThrownError)
    (nodeEnv : Option String) (now : String) (h : req.requestId = some "") :
    (∀ s, req.headers.lookup "x-request-id" = some (HeaderValue.str s) →
      s ≠ "" →
      (globalErrorHandler nodeEnv now err req).body.meta "requestId"
        = some s) ∧
    ((∀ s, req.headers.lookup "x-request-id" = some (HeaderValue.str s) →
        s = "") →
      (globalErrorHandler nodeEnv now err req).body.meta "requestId"
        = none) := by
  have hmeta : (globalErrorHandler nodeEnv now err req).body.meta
      = generateMeta now (requestMeta req) := by
    cases err <;> rfl
  constructor
  · intro s hs hne
    rw [hmeta]
    unfold requestMeta rawRequestId jsOrString headerStringValue
    rw [h, hs]
    simp [hne, generateMeta]
  · intro hfalsy
    rw [hmeta]
    unfold requestMeta rawRequestId jsOrString headerStringValue
    rw [h]
    cases hl : req.headers.lookup "x-request-id" with
    | none => simp [generateMeta]
    | some hv =>
      cases hv with
      | str s =>
        have hse := hfalsy s hl
        subst hse
        simp [generateMeta]
      | strs l => simp [generateMeta]

/-- Witness for amended C9: an empty `requestId` falls through to a
non-empty single-string header value. -/
theorem falsy_requestId_fallthrough_witness :
    (⟨some "", [("x-request-id", HeaderValue.str "hdr-9")]⟩
        : ApiRequest).requestId = some "" ∧
    (globalErrorHandler none "T0" (ThrownError.unknown ⟨"y", none, none⟩)
        ⟨some "", [("x-request-id", HeaderValue.str "hdr-9")]⟩).body.meta
        "requestId" = some "hdr-9" :=
  ⟨rfl,
    (falsy_requestId_fallthrough
        ⟨some "", [("x-request-id", HeaderValue.str "hdr-9")]⟩
        (ThrownError.unknown ⟨"y", none, none⟩) none "T0" rfl).1 "hdr-9" rfl
      (by decide)⟩

/-- For a positive divisor, the rational ceiling of `t / l` is the natural
number `(t + l - 1) / l`. -/
theorem ceil_div_as_nat_div (t l : Nat) (hl : 0 < l) :
    ⌈(t : ℚ) / (l : ℚ)⌉ = ((t + l - 1) / l : Nat) := by
  have hl' : (0 : ℚ) < (l : ℚ) := by exact_mod_cast hl
  have hdm := Nat.div_add_mod (t + l - 1) l
  have hmod : (t + l - 1) % l < l := Nat.mod_lt _ hl
  obtain ⟨q, hq⟩ : ∃ q, (t + l - 1) / l = q := ⟨_, rfl⟩
  obtain ⟨r, hr⟩ : ∃ r, (t + l - 1) % l = r := ⟨_, rfl⟩
  rw [hq, hr] at hdm
  rw [hr] at hmod
  obtain ⟨m, hm⟩ : ∃ m, l * q = m := ⟨_, rfl⟩
  rw [hm] at hdm
  have ht : t ≤ m := by omega
  have hlt : m < t + l := by omega
  have hml : (l : ℚ) * (q : ℚ) = (m : ℚ) := by exact_mod_cast hm
  have hm2 : (m : ℚ) < (t : ℚ) + (l : ℚ) := by exact_mod_cast hlt
  have hm3 : (t : ℚ) ≤ (m : ℚ) := by exact_mod_cast ht
  rw [hq, Int.ceil_eq_iff]
  push_cast
  constructor
  · rw [lt_div_iff₀ hl']
    calc ((q : ℚ) - 1) * (l : ℚ) = (l : ℚ) * (q : ℚ) - (l : ℚ) := by ring
    _ = (m : ℚ) - (l : ℚ) := by rw [hml]
    _ < (t : ℚ) := by linarith
  · rw [div_le_iff₀ hl']
    calc (t : ℚ) ≤ (m : ℚ) := hm3
    _ = (l : ℚ) * (q : ℚ) := hml.symm
    _ = (q : ℚ) * (l : ℚ) := mul_comm _ _

/-- Claim C6: for non-negative `{page, limit, total}` with `limit > 0`, the
pagination block satisfies `totalPages = ceil(total / limit)` (equivalently
`(total + limit - 1) / limit` over the naturals), `hasNextPage` iff
`page < totalPages`, `hasPrevPage` iff `page > 1`; and for `total = 0` it
yields `totalPages = 0` and `hasNextPage = false`. -/
theorem pagination_block_correct (page limit total : Nat) (hl : 0 < limit) :
    (mkPaginationOutput page limit total).totalPages
      = ⌈(total : ℚ) / (limit : ℚ)⌉ ∧
    (mkPaginationOutput page limit total).totalPages
      = ((total + limit - 1) / limit : Nat) ∧
    ((mkPaginationOutput page limit total).hasNextPage = true ↔
      (page : Int) < (mkPaginationOutput page limit total).totalPages) ∧
    ((mkPaginationOutput page limit total).hasPrevPage = true ↔ 1 < page) ∧
    (total = 0 → (mkPaginationOutput page limit total).totalPages = 0 ∧
      (mkPaginationOutput page limit total).hasNextPage = false) := by
  refine ⟨rfl, ceil_div_as_nat_div total limit hl, ?_, ?_, ?_⟩
  · simp [mkPaginationOutput]
  · simp [mkPaginationOutput]
  · rintro rfl
    have h0 : (mkPaginationOutput page limit 0).totalPages = 0 := by
      simp [mkPaginationOutput]
    refine ⟨h0, ?_⟩
    simp only [mkPaginationOutput, Nat.cast_zero, zero_div, Int.ceil_zero]
    simp [Int.natCast_nonneg, not_lt]

/-- Witness for C6 (a concrete scenario: `page 5, limit 10,
total 50`): `totalPages` is `(50 + 10 - 1) / 10 = 5`. -/
theorem pagination_block_correct_witness :
    0 < 10 ∧
    (mkPaginationOutput 5 10 50).totalPages = ((50 + 10 - 1) / 10 : Nat) :=
  ⟨by decide, (pagination_block_correct 5 10 50 (by decide)).2.1⟩

end ApiResponse
